import Mathlib

/-!
Shallow embedding of the eBPF virtual machine in pkg/vm/vm.go.

Go `uint64` values are represented as `Nat` reduced modulo `2 ^ 64` at each
operation that can wrap; `int16`/`int32`/`int64` values are represented as
`Int` with explicit two's-complement conversions.  A Go runtime fault
(invalid register index, out-of-range slice index, negative shift count)
is modelled by `Option`: `none` means the Go code does not return normally.
-/

namespace Ebpf

/-- Machine constants from vm.go. -/
def StackSize : Nat := 512

def NumRegisters : Nat := 11

/-- Opcode constants from vm.go (only those the embedding needs). -/
def OpcodeLDDW : Nat := 0x18

def OpcodeLSHIMM : Nat := 0x67

def OpcodeRSHIMM : Nat := 0x77

def OpcodeARSHIMM : Nat := 0xc7

def OpcodeMOVDSTIMM : Nat := 0xb7

def OpcodeLDXH : Nat := 0x69

def OpcodeSTXH : Nat := 0x6b

def OpcodeSTXDW : Nat := 0x7b

def OpcodeEXIT : Nat := 0x95

/-- The `binary.ByteOrder` configuration: little- or big-endian. -/
inductive ByteOrder where
  | little
  | big
deriving DecidableEq

/-- Instruction struct from instruction.go: 8-bit opcode, packed dst/src
byte, signed 16-bit offset, signed 32-bit immediate. -/
structure Instruction where
  Opcode : Nat
  DstSrc : Nat
  Offset : Int
  Immediate : Int

/-- VM struct from vm.go: byte order, 11 general-purpose registers, a
512-byte stack, and a program counter.  Registers and stack cells are
total functions from index to value; only indices below `NumRegisters`
resp. `StackSize` are meaningful. -/
structure VM where
  Endianness : ByteOrder
  GPR : Nat → Nat
  Stack : Nat → Nat
  PC : Int

/-- Pointwise update of a register or stack array. -/
def regWrite (g : Nat → Nat) (i v : Nat) : Nat → Nat :=
  fun n => if n = i then v else g n

/-- VM.getRegister: Go panics when the index reaches NumRegisters. -/
def getRegister (g : Nat → Nat) (i : Nat) : Option Nat :=
  if NumRegisters ≤ i then none else some (g i)

/-- VM.setRegister: Go panics when the index reaches NumRegisters. -/
def setRegister (g : Nat → Nat) (i v : Nat) : Option (Nat → Nat) :=
  if NumRegisters ≤ i then none else some (regWrite g i v)

/-- Reinterpret a uint64 bit pattern as a Go int64. -/
def toInt64 (n : Nat) : Int :=
  if n < 2 ^ 63 then (n : Int) else (n : Int) - 2 ^ 64

/-- Wrap an integer into the int64 range, as Go signed addition does. -/
def wrapS64 (x : Int) : Int :=
  (x + 2 ^ 63) % 2 ^ 64 - 2 ^ 63

/-- Reinterpret a Go signed integer as a uint64 bit pattern. -/
def toUInt64Pattern (x : Int) : Nat :=
  (x % (2 ^ 64 : Int)).toNat

/-- Byte `k` (little-endian position) of a natural number. -/
def byteAt (v k : Nat) : Nat :=
  (v >>> (8 * k)) &&& 255

/-- binary.ByteOrder.PutUint16. -/
def putUint16 (e : ByteOrder) (v : Nat) : List Nat :=
  match e with
  | .little => [byteAt v 0, byteAt v 1]
  | .big => [byteAt v 1, byteAt v 0]

/-- binary.ByteOrder.PutUint64. -/
def putUint64 (e : ByteOrder) (v : Nat) : List Nat :=
  match e with
  | .little => [byteAt v 0, byteAt v 1, byteAt v 2, byteAt v 3,
                byteAt v 4, byteAt v 5, byteAt v 6, byteAt v 7]
  | .big => [byteAt v 7, byteAt v 6, byteAt v 5, byteAt v 4,
             byteAt v 3, byteAt v 2, byteAt v 1, byteAt v 0]

/-- binary.ByteOrder.Uint16 on two bytes. -/
def getU16 (e : ByteOrder) (b0 b1 : Nat) : Nat :=
  match e with
  | .little => b0 ||| (b1 <<< 8)
  | .big => b1 ||| (b0 <<< 8)

/-- Assemble four bytes into a uint32 in the given byte order. -/
def getU32 (e : ByteOrder) (b0 b1 b2 b3 : Nat) : Nat :=
  match e with
  | .little => b0 ||| (b1 <<< 8) ||| (b2 <<< 16) ||| (b3 <<< 24)
  | .big => b3 ||| (b2 <<< 8) ||| (b1 <<< 16) ||| (b0 <<< 24)

/-- Reinterpret a uint16 bit pattern as a Go int16. -/
def toInt16 (n : Nat) : Int :=
  if n < 2 ^ 15 then (n : Int) else (n : Int) - 2 ^ 16

/-- Reinterpret a uint32 bit pattern as a Go int32. -/
def toInt32 (n : Nat) : Int :=
  if n < 2 ^ 31 then (n : Int) else (n : Int) - 2 ^ 32

/-- Go `copy(vm.Stack[start:], b)`: writes successive bytes of `b` from
`start` on, stopping silently at the end of the stack (Go `copy` clamps
to the destination slice's length). -/
def copyClamped : (Nat → Nat) → Nat → List Nat → (Nat → Nat)
  | s, _, [] => s
  | s, start, c :: rest =>
      if start < StackSize then copyClamped (regWrite s start c) (start + 1) rest else s

/-- Go `copy(vm.Stack[start:], b)` including the slice-bounds panic:
slicing `vm.Stack[start:]` panics unless `0 ≤ start ≤ StackSize`. -/
def stackCopy (s : Nat → Nat) (start : Int) (b : List Nat) : Option (Nat → Nat) :=
  if 0 ≤ start ∧ start ≤ (StackSize : Int) then some (copyClamped s start.toNat b) else none

/-- Go `vm.Stack[start : start+2]`: panics unless `0 ≤ start` and
`start + 2 ≤ StackSize`; otherwise yields the two bytes. -/
def stackRead2 (s : Nat → Nat) (start : Int) : Option (Nat × Nat) :=
  if 0 ≤ start ∧ start + 2 ≤ (StackSize : Int) then
    some (s start.toNat, s (start.toNat + 1))
  else none

/-- VM.getSrc: which nibble of DstSrc is the source depends on the
configured byte order (the `default` branch of the Go switch covers
big-endian). -/
def getSrc (e : ByteOrder) (i : Instruction) : Nat :=
  match e with
  | .little => i.DstSrc >>> 4
  | .big => i.DstSrc &&& 15

/-- VM.getDst: mirror image of getSrc. -/
def getDst (e : ByteOrder) (i : Instruction) : Nat :=
  match e with
  | .little => i.DstSrc &&& 15
  | .big => i.DstSrc >>> 4

/-- The state change performed by VM.Execute for every non-exit case of
the switch, in the Go evaluation order.  `none` models a Go runtime
panic; the final `some vm` is the switch's implicit default: nothing
happens and Execute returns nil. -/
def executeStep (vm : VM) (i : Instruction) : Option VM :=
  let src := getSrc vm.Endianness i
  let dst := getDst vm.Endianness i
  if i.Opcode = OpcodeSTXDW then do
    let v ← getRegister vm.GPR src
    let b := putUint64 vm.Endianness v
    let addr ← getRegister vm.GPR dst
    let st ← stackCopy vm.Stack (wrapS64 (toInt64 addr + i.Offset)) b
    pure { vm with Stack := st }
  else if i.Opcode = OpcodeSTXH then do
    let v ← getRegister vm.GPR src
    let b := putUint16 vm.Endianness (v % 2 ^ 16)
    let addr ← getRegister vm.GPR dst
    let st ← stackCopy vm.Stack (wrapS64 (toInt64 addr + i.Offset)) b
    pure { vm with Stack := st }
  else if i.Opcode = OpcodeLDXH then do
    let base ← getRegister vm.GPR src
    let bytes ← stackRead2 vm.Stack (wrapS64 (toInt64 base + i.Offset))
    let value := getU16 vm.Endianness bytes.1 bytes.2
    let g ← setRegister vm.GPR dst value
    pure { vm with GPR := g }
  else if i.Opcode = OpcodeMOVDSTIMM then do
    let g ← setRegister vm.GPR dst (toUInt64Pattern i.Immediate)
    pure { vm with GPR := g }
  else if i.Opcode = OpcodeLSHIMM then do
    let value ← getRegister vm.GPR (getDst vm.Endianness i)
    if i.Immediate < 0 then none
    else do
      let g ← setRegister vm.GPR dst ((value <<< i.Immediate.toNat) % 2 ^ 64)
      pure { vm with GPR := g }
  else if i.Opcode = OpcodeRSHIMM then do
    let value ← getRegister vm.GPR (getDst vm.Endianness i)
    if i.Immediate < 0 then none
    else do
      let g ← setRegister vm.GPR dst (value >>> i.Immediate.toNat)
      pure { vm with GPR := g }
  else if i.Opcode = OpcodeARSHIMM then do
    let value ← getRegister vm.GPR (getDst vm.Endianness i)
    if i.Immediate < 0 then none
    else do
      let g ← setRegister vm.GPR dst
        (toUInt64Pattern (Int.fdiv (toInt64 value) (2 ^ i.Immediate.toNat)))
      pure { vm with GPR := g }
  else
    pure vm

/-- VM.Execute: the returned Bool is true exactly when the Go function
returns a non-nil error, which happens only in the OpcodeEXIT case. -/
def Execute (vm : VM) (i : Instruction) : Option (VM × Bool) :=
  if i.Opcode = OpcodeEXIT then some (vm, true)
  else (executeStep vm i).map (fun v => (v, false))

/-- binary.Read of one Instruction struct from the byte stream: consumes
exactly 8 bytes, errors when fewer remain. -/
def decodeInstr (e : ByteOrder) : List Nat → Option (Instruction × List Nat)
  | b0 :: b1 :: b2 :: b3 :: b4 :: b5 :: b6 :: b7 :: rest =>
      some ({ Opcode := b0, DstSrc := b1,
              Offset := toInt16 (getU16 e b2 b3),
              Immediate := toInt32 (getU32 e b4 b5 b6 b7) }, rest)
  | _ => none

/-- VM.Fetch: reads one instruction and increments PC.  There is no
special handling of multi-word (lddw) instructions. -/
def Fetch (vm : VM) (prog : List Nat) : Option (Instruction × VM × List Nat) :=
  (decodeInstr vm.Endianness prog).map (fun p => (p.1, { vm with PC := vm.PC + 1 }, p.2))

/-- VM.Load: sets R10 to the top of the stack. -/
def Load (vm : VM) : VM :=
  { vm with GPR := regWrite vm.GPR 10 StackSize }

/-- Outcome of the fetch-execute loop in cmd/vm/main.go. -/
inductive RunOutcome where
  | exited (vm : VM)
  | fetchFail (vm : VM)
  | panicked

/-- The fetch-execute loop of cmd/vm/main.go, fuelled: fetch, execute,
stop on the exit error or on a fetch error. -/
def run : Nat → VM → List Nat → Option RunOutcome
  | 0, _, _ => none
  | fuel + 1, vm, prog =>
      match Fetch vm prog with
      | none => some (.fetchFail vm)
      | some (i, vm1, rest) =>
          match Execute vm1 i with
          | none => some .panicked
          | some (vm2, true) => some (.exited vm2)
          | some (vm2, false) => run fuel vm2 rest

/-- Observation: a register of the VM state after one Execute. -/
def execGPR (vm : VM) (i : Instruction) (r : Nat) : Option Nat :=
  (Execute vm i).map (fun p => p.1.GPR r)

/-- Observation: a stack byte of the VM state after one Execute. -/
def execStackAt (vm : VM) (i : Instruction) (a : Nat) : Option Nat :=
  (Execute vm i).map (fun p => p.1.Stack a)

/-- Observation: whether Execute returned the non-nil exit error. -/
def execExit (vm : VM) (i : Instruction) : Option Bool :=
  (Execute vm i).map (fun p => p.2)

/-- Replace the register file of a VM state. -/
def withGPR (vm : VM) (g : Nat → Nat) : VM :=
  { vm with GPR := g }

/-- A freshly loaded little-endian VM (zeroed state, then Load sets R10
to the top of the stack) with r1 = 0x1234 as in the spec's scenarios. -/
def vmLE : VM :=
  Load { Endianness := .little, GPR := regWrite (fun _ => 0) 1 0x1234,
         Stack := fun _ => 0, PC := 0 }

/-- A zeroed little-endian VM that was never loaded. -/
def vmF : VM :=
  { Endianness := .little, GPR := fun _ => 0, Stack := fun _ => 0, PC := 0 }

/-- stxh [r10-1], r1 in little-endian nibble order: a 2-byte store whose
last byte falls past the end of the stack. -/
def stxhAt511 : Instruction :=
  { Opcode := 0x6b, DstSrc := 0x1a, Offset := -1, Immediate := 0 }

/-- stxh [r10+0], r1: a 2-byte store entirely past the end of the stack
(address 512 on a 512-byte stack). -/
def stxhAt512 : Instruction :=
  { Opcode := 0x6b, DstSrc := 0x1a, Offset := 0, Immediate := 0 }

/-- mov r10, 42 in little-endian nibble order. -/
def movR10 : Instruction :=
  { Opcode := 0xb7, DstSrc := 0x0a, Offset := 0, Immediate := 42 }

/-- A little-endian lddw program: first word has opcode 0x18 and
immediate 1, the continuation word carries immediate 2. -/
def lddwProg : List Nat :=
  [0x18, 0x01, 0, 0, 1, 0, 0, 0,
   0, 0, 0, 0, 2, 0, 0, 0]

/-- Opcode 0x06 is a syntactically valid pattern with no defined
operation (class jump-32 with the jump-always code, which exists only in
the 64-bit jump class). -/
def undefInstr : Instruction :=
  { Opcode := 0x06, DstSrc := 0, Offset := 0, Immediate := 0 }

/-- A little-endian VM whose r1 holds the two's-complement pattern of
the signed value -8. -/
def vmNeg8 : VM :=
  { Endianness := .little, GPR := regWrite (fun _ => 0) 1 (2 ^ 64 - 8),
    Stack := fun _ => 0, PC := 0 }

/-- arsh r1, 1 in little-endian nibble order. -/
def arshR1By1 : Instruction :=
  { Opcode := 0xc7, DstSrc := 0x01, Offset := 0, Immediate := 1 }

/-- rsh r1, 1 in little-endian nibble order. -/
def rshR1By1 : Instruction :=
  { Opcode := 0x77, DstSrc := 0x01, Offset := 0, Immediate := 1 }

/-- An instruction carrying a given DstSrc byte (the other fields are
irrelevant to getSrc and getDst). -/
def mkByteInstr (b : Nat) : Instruction :=
  { Opcode := 0, DstSrc := b, Offset := 0, Immediate := 0 }

/-- Bytes of the program [stxh [r10-4], r1; ldxh r2, [r10-4]; exit]
assembled for a little-endian VM (DstSrc low nibble = dst). -/
def progLE : List Nat :=
  [0x6b, 0x1a, 0xfc, 0xff, 0, 0, 0, 0,
   0x69, 0xa2, 0xfc, 0xff, 0, 0, 0, 0,
   0x95, 0, 0, 0, 0, 0, 0, 0]

/-- The same program assembled for a big-endian VM (DstSrc high nibble =
dst, offset bytes in big-endian order). -/
def progBE : List Nat :=
  [0x6b, 0xa1, 0xff, 0xfc, 0, 0, 0, 0,
   0x69, 0x2a, 0xff, 0xfc, 0, 0, 0, 0,
   0x95, 0, 0, 0, 0, 0, 0, 0]

/-- Run the fetch-execute loop on a freshly loaded VM with r1 = 0x1234
and observe r2 when the run reaches the exit instruction. -/
def runR2 (e : ByteOrder) (prog : List Nat) : Option Nat :=
  match run 4 (Load { Endianness := e, GPR := regWrite (fun _ => 0) 1 0x1234,
                      Stack := fun _ => 0, PC := 0 }) prog with
  | some (.exited vm) => some (vm.GPR 2)
  | _ => none

/-- lsh r1, 64 in little-endian nibble order: a shift by exactly the
operand width. -/
def lshR1By64 : Instruction :=
  { Opcode := 0x67, DstSrc := 0x01, Offset := 0, Immediate := 64 }

/-- A little-endian VM whose r1 holds 1. -/
def vmOne : VM :=
  { Endianness := .little, GPR := regWrite (fun _ => 0) 1 1,
    Stack := fun _ => 0, PC := 0 }

/-- A little-endian VM whose r1 holds 3, used to instantiate the shift
semantics theorem. -/
def vmThree : VM :=
  { Endianness := .little, GPR := regWrite (fun _ => 0) 1 3,
    Stack := fun _ => 0, PC := 0 }

/-- lsh r1, 2 in little-endian nibble order. -/
def lshR1By2 : Instruction :=
  { Opcode := 0x67, DstSrc := 0x01, Offset := 0, Immediate := 2 }

/-- stxdw [r11+0], r0 in little-endian nibble order: the dst nibble 11
names a register index outside the register file. -/
def stxdwR11 : Instruction :=
  { Opcode := 0x7b, DstSrc := 0x0b, Offset := 0, Immediate := 0 }

/-- The exit instruction. -/
def exitInstr : Instruction :=
  { Opcode := 0x95, DstSrc := 0, Offset := 0, Immediate := 0 }

end Ebpf

namespace Ebpf

set_option maxRecDepth 4096 in
/-- Claim C4: for every DstSrc byte, the (dst, src) pair decoded under
little-endian configuration is the swap of the pair decoded under
big-endian configuration; under little-endian, dst is the low nibble
and src the high nibble. -/
theorem claim4_nibble_order_swap :
    ∀ b : Fin 256,
      getDst .little (mkByteInstr b) = getSrc .big (mkByteInstr b)
      ∧ getSrc .little (mkByteInstr b) = getDst .big (mkByteInstr b)
      ∧ getDst .little (mkByteInstr b) = b.val % 16
      ∧ getSrc .little (mkByteInstr b) = b.val / 16 := by decide

/-- Claim C8: running [stxh [r10-4], r1; ldxh r2, [r10-4]; exit] on a
freshly loaded VM with r1 = 0x1234 terminates through the exit
instruction with r2 = 0x1234 under both byte orders. -/
theorem claim8_store_load_roundtrip :
    runR2 .little progLE = some 0x1234 ∧ runR2 .big progBE = some 0x1234 := by
  refine ⟨by decide, by decide⟩

/-- Claim C9: getRegister and setRegister return a value exactly for
register indices below NumRegisters = 11, and fault (Go panicking is
modelled as none) for every index of 11 or more. -/
theorem claim9_register_bounds :
    ∀ (g : Nat → Nat) (i v : Nat),
      ((getRegister g i).isSome ↔ i < NumRegisters)
      ∧ ((setRegister g i v).isSome ↔ i < NumRegisters) := by
  intro g i v
  constructor <;>
    · simp only [getRegister, setRegister, NumRegisters]
      split <;> simp <;> omega

/-- Claim C6 counterexample: the claim predicts that lsh r1, 64 leaves
r1 = 1 <<< (64 % 64) = 1, but executing it on r1 = 1 yields 0: Go does
not reduce shift counts modulo the width. -/
theorem claim6_counterexample_shift64 :
    execGPR vmOne lshR1By64 1 = some 0
    ∧ execGPR vmOne lshR1By64 1 ≠ some ((1 <<< (64 % 64)) % 2 ^ 64) := by
  refine ⟨by decide, by decide⟩

/-- Claim C6 amended: for a valid destination register and a
nonnegative immediate, lsh and rsh perform 64-bit logical shifts by the
full immediate amount: the count is not reduced modulo 64, so counts of
64 or more clear the register (the value itself wraps modulo 2^64 on
lsh, as Go uint64 arithmetic does). -/
theorem claim6_amended_shift_semantics (vm : VM) (i : Instruction)
    (hd : getDst vm.Endianness i < NumRegisters) (hk : 0 ≤ i.Immediate) :
    (i.Opcode = OpcodeLSHIMM →
      Execute vm i = some (withGPR vm (regWrite vm.GPR (getDst vm.Endianness i)
        ((vm.GPR (getDst vm.Endianness i) <<< i.Immediate.toNat) % 2 ^ 64)), false))
    ∧ (i.Opcode = OpcodeRSHIMM →
      Execute vm i = some (withGPR vm (regWrite vm.GPR (getDst vm.Endianness i)
        (vm.GPR (getDst vm.Endianness i) >>> i.Immediate.toNat)), false)) := by
  have hnd : ¬ NumRegisters ≤ getDst vm.Endianness i := Nat.not_le.mpr hd
  have hni : ¬ i.Immediate < 0 := Int.not_lt.mpr hk
  constructor <;> intro hop <;>
    simp [Execute, executeStep, hop, getRegister, setRegister, hnd, hni, withGPR,
      OpcodeEXIT, OpcodeSTXDW, OpcodeSTXH, OpcodeLDXH, OpcodeMOVDSTIMM,
      OpcodeLSHIMM, OpcodeRSHIMM, OpcodeARSHIMM]

/-- Witness for the amended C6 theorem: lsh r1, 2 on r1 = 3 yields
(3 <<< 2) % 2^64 = 12. -/
theorem claim6_amended_witness :
    Execute vmThree lshR1By2 = some (withGPR vmThree
      (regWrite vmThree.GPR (getDst vmThree.Endianness lshR1By2)
        ((vmThree.GPR (getDst vmThree.Endianness lshR1By2)
          <<< lshR1By2.Immediate.toNat) % 2 ^ 64)), false) :=
  (claim6_amended_shift_semantics vmThree lshR1By2 (by decide) (by decide)).1 rfl

/-- Claim C10 counterexample: the claim says every non-exit opcode makes
Execute return nil, but stxdw with destination nibble 11 does not return
at all: getRegister(11) panics (modelled as none). -/
theorem claim10_counterexample_panic :
    Execute vmF stxdwR11 = none ∧ stxdwR11.Opcode ≠ OpcodeEXIT := by
  refine ⟨rfl, by decide⟩

/-- Claim C10 amended: whenever Execute returns at all, the returned
error is non-nil exactly when the opcode is OpcodeEXIT, and the exit
result carries the VM state unchanged; on some non-exit instructions
Execute panics instead of returning. -/
theorem claim10_amended_exit_iff (vm : VM) (i : Instruction) (p : VM × Bool)
    (h : Execute vm i = some p) :
    (p.2 = true ↔ i.Opcode = OpcodeEXIT) ∧ (p.2 = true → p.1 = vm) := by
  unfold Execute at h
  by_cases hop : i.Opcode = OpcodeEXIT
  · simp only [hop, if_pos rfl] at h
    cases h
    simp [hop]
  · simp only [if_neg hop, Option.map_eq_some'] at h
    obtain ⟨v, _, hp⟩ := h
    subst hp
    simp [hop]

/-- Witness for the amended C10 theorem, at the exit instruction on a
concrete VM. -/
theorem claim10_amended_witness :
    (((vmF, true) : VM × Bool).2 = true ↔ exitInstr.Opcode = OpcodeEXIT)
    ∧ (((vmF, true) : VM × Bool).2 = true → ((vmF, true) : VM × Bool).1 = vmF) :=
  claim10_amended_exit_iff vmF exitInstr (vmF, true) rfl

end Ebpf

namespace Ebpf

/-- Claim C1: the spec requires a MemoryBoundsFault, a transition to
Faulted and no bytes written for any store whose address or
address-plus-length leaves [0, 512).  The code has no bounds check: the
2-byte store at address 511 silently writes its first byte (Go copy
clamps at the end of the array) and Execute returns nil, and the 2-byte
store at address 512 silently writes nothing and returns nil, leaving
the VM state untouched in every component. -/
theorem claim1_store_out_of_bounds_unchecked :
    execStackAt vmLE stxhAt511 511 = some 0x34
    ∧ execExit vmLE stxhAt511 = some false
    ∧ Execute vmLE stxhAt512 = some (vmLE, false) := by
  refine ⟨by decide, by decide, rfl⟩

/-- Claim C2: the spec requires FrameRegisterWriteViolation on any mov
or ALU write to register 10.  The code's setRegister accepts index 10,
so mov r10, 42 overwrites the frame pointer (previously 512, the
top-of-stack value set by Load) and Execute returns nil. -/
theorem claim2_frame_register_overwritten :
    vmLE.GPR 10 = 512
    ∧ execGPR vmLE movR10 10 = some 42
    ∧ execExit vmLE movR10 = some false := by
  refine ⟨rfl, by decide, by decide⟩

/-- Claim C3: the spec requires the decoder to consume the 8-byte
continuation word of an lddw (opcode 0x18) instruction, verify it and
produce the 64-bit immediate (2 <<< 32) ||| 1 = 8589934593.  The code's
Fetch reads exactly 8 bytes whatever the opcode: the fetched immediate
is just 1 and all 8 continuation bytes are still unconsumed. -/
theorem claim3_lddw_continuation_not_consumed :
    (Fetch vmF lddwProg).map (fun p => (p.1.Opcode, p.1.Immediate, p.2.2.length))
      = some (0x18, (1 : Int), 8)
    ∧ (Fetch vmF lddwProg).map (fun p => p.1.Immediate) ≠ some (8589934593 : Int) := by
  refine ⟨rfl, by decide⟩

/-- Claim C5: the spec requires undefined opcodes to fail closed with
UnsupportedOpcode and a transition to Faulted.  The code's Execute falls
through the switch's implicit default for opcode 0x06: it returns nil
with the VM state completely unchanged, a silent no-op. -/
theorem claim5_undefined_opcode_silent_noop :
    Execute vmF undefInstr = some (vmF, false) := rfl

/-- Claim C7: arsh by 1 on the pattern of -8 (2^64 - 8) yields the
pattern of -4 (2^64 - 4), preserving the sign, while rsh on the same
input yields the large positive value 2^63 - 4. -/
theorem claim7_arsh_sign_preservation :
    execGPR vmNeg8 arshR1By1 1 = some (2 ^ 64 - 4)
    ∧ execGPR vmNeg8 rshR1By1 1 = some (2 ^ 63 - 4) := by
  refine ⟨by decide, by decide⟩

end Ebpf
